import Mathlib

/-!
Verification of the Crisis Risk Scoring & Forecasting Core of the
Global-Socio-Economic-Dashboard repository.

The definitions below are a shallow embedding of the TypeScript source:
- src/lib/riskCalculator.ts   (calculateRiskScore, calculateCountryRisks)
- src/lib/crisisAnalysis.ts   (analyzeEconomicCrisis, analyzeFoodCrisis,
  the local rule-based variant of the file)
- src/lib/forecasting.ts      (forecastIndicator, calculateGrowthRate)
- the inline countryRiskData computation of the Home page.

JS numbers are modelled as rationals (the input boundary guarantees finite
values; an absent optional field is modelled as Option.none, which the
source distinguishes from 0 by explicit undefined/NaN guards).
JS stable Array.prototype.sort with a numeric comparator is modelled by
List.mergeSort, which is stable with the corresponding boolean order.
-/

namespace Dashboard

/-! ## riskCalculator.ts : data model -/

/-- Interface CountryRiskData of riskCalculator.ts: six optional numeric
fields; an absent field is none. -/
structure CountryRiskData where
  gdpGrowth : Option ℚ
  inflation : Option ℚ
  unemployment : Option ℚ
  foodProductionIndex : Option ℚ
  foodImports : Option ℚ
  populationGrowth : Option ℚ
deriving DecidableEq, Repr

/-- Weight added by the gdpGrowth block of calculateRiskScore (lines 20-25). -/
def gdpGrowthRisk (g : ℚ) : ℚ :=
  if g < -3 then 30 else if g < 0 then 15 else if g < 2 then 10 else 0

/-- Weight added by the inflation block of calculateRiskScore (lines 27-32). -/
def inflationRisk (x : ℚ) : ℚ :=
  if x > 20 then 25 else if x > 10 then 15 else if x > 5 then 5 else 0

/-- Weight added by the unemployment block of calculateRiskScore (lines 34-39). -/
def unemploymentRisk (x : ℚ) : ℚ :=
  if x > 20 then 20 else if x > 10 then 10 else if x > 7 then 5 else 0

/-- Weight added by the foodProductionIndex block of calculateRiskScore (lines 42-47). -/
def foodProductionRisk (x : ℚ) : ℚ :=
  if x < 80 then 20 else if x < 90 then 10 else if x < 95 then 5 else 0

/-- Weight added by the foodImports block of calculateRiskScore (lines 49-53). -/
def foodImportsRisk (x : ℚ) : ℚ :=
  if x > 25 then 10 else if x > 15 then 5 else 0

/-- Weight added by the population-pressure block of calculateRiskScore
(lines 56-63), which is guarded on BOTH populationGrowth and
foodProductionIndex being present. -/
def popPressureRisk (p f : ℚ) : ℚ :=
  if p > 2 ∧ f < 100 then 15 else if p > 3 then 5 else 0

/-- Contribution of a single-field block: the field's weight function when
the field is present, nothing added when it is absent (the source skips the
whole block when the field is undefined or NaN). -/
def optRisk (f : ℚ → ℚ) : Option ℚ → ℚ
  | some x => f x
  | Option.none => 0

/-- The factorCount increment of a single-field block: 1 when the guard
passes (field present), 0 otherwise. -/
def optCount : Option ℚ → ℕ
  | some _ => 1
  | Option.none => 0

/-- The factorCount increment of the population-pressure block: its guard
requires populationGrowth AND foodProductionIndex to both be present. -/
def popPressureCount : Option ℚ → Option ℚ → ℕ
  | some _, some _ => 1
  | _, _ => 0

/-- Weight contribution of the population-pressure block, 0 when either
operand field is absent (the guard fails and the block is skipped). -/
def popPressureBlock : Option ℚ → Option ℚ → ℚ
  | some p, some f => popPressureRisk p f
  | _, _ => 0

/-- The final value of the factorCount accumulator of calculateRiskScore:
one increment per block whose guard passed. -/
def factorCount (d : CountryRiskData) : ℕ :=
  optCount d.gdpGrowth + optCount d.inflation + optCount d.unemployment +
    optCount d.foodProductionIndex + optCount d.foodImports +
    popPressureCount d.populationGrowth d.foodProductionIndex

/-- The six block contributions of calculateRiskScore in source order; the
riskScore accumulator ends at their sum. -/
def blockWeights (d : CountryRiskData) : List ℚ :=
  [optRisk gdpGrowthRisk d.gdpGrowth,
   optRisk inflationRisk d.inflation,
   optRisk unemploymentRisk d.unemployment,
   optRisk foodProductionRisk d.foodProductionIndex,
   optRisk foodImportsRisk d.foodImports,
   popPressureBlock d.populationGrowth d.foodProductionIndex]

/-- Function calculateRiskScore of riskCalculator.ts (lines 15-67): add the
weight of every fired rule, then return min(100, riskScore) when at least
one factor was usable and the sentinel 50 otherwise. -/
def calculateRiskScore (d : CountryRiskData) : ℚ :=
  if 0 < factorCount d then min 100 (blockWeights d).sum else 50

/-- The weights of the rules that actually fired (every branch of the
source adds a strictly positive constant, so a block contributes to the
score exactly when its contribution is nonzero). -/
def firedWeights (d : CountryRiskData) : List ℚ :=
  (blockWeights d).filter (fun w => decide (w ≠ 0))

/-! ## Home page inline countryRiskData (src/unnamed/part_004, lines 182-228) -/

/-- The factors accumulator of the inline Home-page risk computation, which
uses only the four fields gdpGrowth, inflation, unemployment and
foodProductionIndex. -/
def homeFactorCount (d : CountryRiskData) : ℕ :=
  optCount d.gdpGrowth + optCount d.inflation + optCount d.unemployment +
    optCount d.foodProductionIndex

/-- The inline Home-page risk score (part_004 lines 188-224): identical
thresholds and weights to calculateRiskScore for its four blocks, with the
same min(100, risk) normalisation and sentinel 50 when factors = 0. -/
def homeRiskScore (d : CountryRiskData) : ℚ :=
  if 0 < homeFactorCount d then
    min 100 (optRisk gdpGrowthRisk d.gdpGrowth + optRisk inflationRisk d.inflation +
      optRisk unemploymentRisk d.unemployment + optRisk foodProductionRisk d.foodProductionIndex)
  else 50

/-! ## riskCalculator.ts : batch runner -/

/-- One element of the dataRows argument of calculateCountryRisks: the
fields the function reads from each row. -/
structure DataRow where
  countryName : String
  year : ℚ
  data : CountryRiskData
deriving DecidableEq, Repr

/-- Assignment riskMap[k] = v on a JS object modelled as an insertion-ordered
association list: overwrite in place when the key exists, append otherwise. -/
def upsert (m : List (String × ℚ)) (k : String) (v : ℚ) : List (String × ℚ) :=
  if m.any (fun p => decide (p.1 = k)) then
    m.map (fun p => if p.1 = k then (k, v) else p)
  else m ++ [(k, v)]

/-- Math.max over the year column (calculateCountryRisks line 70); none for
an empty input, where the JS -Infinity value matches no finite row year. -/
def latestYear? (rows : List DataRow) : Option ℚ :=
  (rows.map (fun r => r.year)).max?

/-- Function calculateCountryRisks of riskCalculator.ts (lines 69-89):
keep only rows whose year equals the GLOBAL maximum year, score each and
write the score into the riskMap keyed by countryName. -/
def calculateCountryRisks (rows : List DataRow) : List (String × ℚ) :=
  match latestYear? rows with
  | Option.none => []
  | some ly =>
      ((rows.filter (fun r => decide (r.year = ly))).map
        (fun r => (r.countryName, calculateRiskScore r.data))).foldl
        (fun m p => upsert m p.1 p.2) []

/-! ## crisisAnalysis.ts : local rule-based analysis -/

/-- One contributing factor pushed by a fired rule. -/
structure Indicator where
  name : String
  value : ℚ
  impact : ℚ
deriving DecidableEq, Repr

/-- Risk level labels of crisisAnalysis.ts. -/
inductive RiskLevel where
  | none
  | low
  | moderate
  | severe
deriving DecidableEq, Repr

/-- Result record of the local analyzers of crisisAnalysis.ts. -/
structure CrisisResult where
  country : String
  probability : ℚ
  riskLevel : RiskLevel
  topIndicators : List Indicator
deriving DecidableEq, Repr

/-- Interface EconomicCrisisIndicators (all six fields required). -/
structure EconomicCrisisIndicators where
  gdpGrowth : ℚ
  inflation : ℚ
  unemployment : ℚ
  domesticCredit : ℚ
  exports : ℚ
  imports : ℚ
deriving DecidableEq, Repr

/-- Interface FoodCrisisIndicators (all seven fields required). -/
structure FoodCrisisIndicators where
  cerealYield : ℚ
  foodImports : ℚ
  foodProductionIndex : ℚ
  gdpGrowth : ℚ
  gdpPerCapita : ℚ
  inflation : ℚ
  populationGrowth : ℚ
deriving DecidableEq, Repr

/-- The contributingFactors list built by analyzeEconomicCrisis
(crisisAnalysis.ts lines 462-530), in rule declaration order; crisisScore
is incremented exactly once per pushed factor, so it equals the length of
this list. -/
def econContributingFactors (i : EconomicCrisisIndicators) : List Indicator :=
  (if i.gdpGrowth < 0 then
    [⟨"GDP Growth (Contraction)", i.gdpGrowth, |i.gdpGrowth|⟩] else []) ++
  (if i.inflation > 20 then
    [⟨"Inflation Rate (High)", i.inflation, i.inflation - 20⟩] else []) ++
  (if i.unemployment > 10 then
    [⟨"Unemployment Rate (High)", i.unemployment, i.unemployment - 10⟩] else []) ++
  (if i.domesticCredit > 100 then
    [⟨"Domestic Credit (Excessive)", i.domesticCredit, i.domesticCredit - 100⟩] else []) ++
  (if i.exports < 15 then
    [⟨"Exports (Weak)", i.exports, 15 - i.exports⟩] else []) ++
  (if i.imports - i.exports > 20 then
    [⟨"Trade Balance (Deficit)", i.imports - i.exports, i.imports - i.exports - 20⟩] else [])

/-- The contributingFactors list built by analyzeFoodCrisis
(crisisAnalysis.ts lines 568-646), in rule declaration order. -/
def foodContributingFactors (i : FoodCrisisIndicators) : List Indicator :=
  (if i.cerealYield < 1000 then
    [⟨"Cereal Yield (Low)", i.cerealYield, 1000 - i.cerealYield⟩] else []) ++
  (if i.foodImports > 15 then
    [⟨"Food Imports (High Dependency)", i.foodImports, i.foodImports - 15⟩] else []) ++
  (if i.foodProductionIndex < 100 then
    [⟨"Food Production Index (Low)", i.foodProductionIndex, 100 - i.foodProductionIndex⟩] else []) ++
  (if i.gdpGrowth < 2 then
    [⟨"GDP Growth (Low)", i.gdpGrowth, 2 - i.gdpGrowth⟩] else []) ++
  (if i.gdpPerCapita < 784 then
    [⟨"GDP Per Capita (Below Poverty Line)", i.gdpPerCapita, 784 - i.gdpPerCapita⟩] else []) ++
  (if i.inflation > 10 then
    [⟨"Inflation Rate (High)", i.inflation, i.inflation - 10⟩] else []) ++
  (if i.populationGrowth > 2.5 then
    [⟨"Population Growth (High Pressure)", i.populationGrowth, i.populationGrowth - 2.5⟩] else [])

/-- Boolean order used to model the JS comparator (a, b) => b.impact - a.impact
of the stable Array.prototype.sort: descending by impact, ties kept in the
original order by stability of mergeSort. -/
def impactDescLE (a b : Indicator) : Bool := decide (b.impact ≤ a.impact)

/-- Shared tail of both analyzers: sort the fired factors by impact
descending (stable) and keep the first three (the slice(0, 3) of the
source). -/
def topIndicatorsOf (l : List Indicator) : List Indicator :=
  (l.mergeSort impactDescLE).take 3

/-- Risk-level banding of analyzeEconomicCrisis (lines 542-545), a function
of the crisis score (number of fired rules). -/
def econRiskLevel (n : ℕ) : RiskLevel :=
  if n ≥ 4 then .severe else if n ≥ 2 then .moderate else if n = 1 then .low else .none

/-- Risk-level banding of analyzeFoodCrisis (lines 658-661). -/
def foodRiskLevel (n : ℕ) : RiskLevel :=
  if n ≥ 5 then .severe else if n ≥ 3 then .moderate else if n ≥ 1 then .low else .none

/-- Function analyzeEconomicCrisis of crisisAnalysis.ts (lines 458-553),
the local rule-based variant. -/
def analyzeEconomicCrisis (country : String) (i : EconomicCrisisIndicators) : CrisisResult :=
  { country := country
    probability := min 100 (((econContributingFactors i).length : ℚ) / 6 * 100)
    riskLevel := econRiskLevel (econContributingFactors i).length
    topIndicators := topIndicatorsOf (econContributingFactors i) }

/-- Function analyzeFoodCrisis of crisisAnalysis.ts (lines 564-669). -/
def analyzeFoodCrisis (country : String) (i : FoodCrisisIndicators) : CrisisResult :=
  { country := country
    probability := min 100 (((foodContributingFactors i).length : ℚ) / 7 * 100)
    riskLevel := foodRiskLevel (foodContributingFactors i).length
    topIndicators := topIndicatorsOf (foodContributingFactors i) }

/-- A single score-to-band mapping consistent with BOTH analyzers: every
attained probability of the economic analyzer (multiples of 100/6) and of
the food analyzer (multiples of 100/7) falls in the band of its risk level.
The bands are fixed, non-overlapping, and totally ordered. -/
def bandOf (s : ℚ) : RiskLevel :=
  if s < 10 then .none else if s < 30 then .low else if s < 60 then .moderate else .severe

/-- Economic indicators record with possibly-absent fields, for the runtime
behaviour of analyzeEconomicCrisis on rows where some indicator is missing.
In JS an absent field is undefined; every comparison with undefined (or
with the NaN produced by arithmetic on undefined, as in the trade-gap
subtraction) is false, so a rule whose field is absent never fires. -/
structure EconOptInput where
  gdpGrowth : Option ℚ
  inflation : Option ℚ
  unemployment : Option ℚ
  domesticCredit : Option ℚ
  exports : Option ℚ
  imports : Option ℚ
deriving DecidableEq, Repr

/-- Contribution of one single-field rule on an optional field: the rule
fires only when the field is present and the threshold test passes. -/
def optFrag (o : Option ℚ) (cond : ℚ → Bool) (mk : ℚ → Indicator) : List Indicator :=
  match o with
  | some x => if cond x then [mk x] else []
  | Option.none => []

/-- Contribution of one two-field rule on optional fields: the rule fires
only when BOTH fields are present and the threshold test on the derived
quantity passes (in JS, arithmetic on an absent operand yields NaN and
every NaN comparison is false). -/
def optFrag2 (o1 o2 : Option ℚ) (cond : ℚ → ℚ → Bool) (mk : ℚ → ℚ → Indicator) :
    List Indicator :=
  match o1, o2 with
  | some x, some y => if cond x y then [mk x y] else []
  | _, _ => []

/-- Fired-rule list of analyzeEconomicCrisis under JS semantics for absent
fields: a rule pushes its factor only when every field it reads is present
and its threshold test passes (an absent field makes the JS comparison
false, never a fired rule; in particular the trade-gap rule needs BOTH
imports and exports). -/
def econFiredOpt (d : EconOptInput) : List Indicator :=
  optFrag d.gdpGrowth (fun g => decide (g < 0)) (fun g => ⟨"GDP Growth (Contraction)", g, |g|⟩) ++
  optFrag d.inflation (fun x => decide (x > 20))
    (fun x => ⟨"Inflation Rate (High)", x, x - 20⟩) ++
  optFrag d.unemployment (fun x => decide (x > 10))
    (fun x => ⟨"Unemployment Rate (High)", x, x - 10⟩) ++
  optFrag d.domesticCredit (fun x => decide (x > 100))
    (fun x => ⟨"Domestic Credit (Excessive)", x, x - 100⟩) ++
  optFrag d.exports (fun x => decide (x < 15)) (fun x => ⟨"Exports (Weak)", x, 15 - x⟩) ++
  optFrag2 d.imports d.exports (fun im ex => decide (im - ex > 20))
    (fun im ex => ⟨"Trade Balance (Deficit)", im - ex, im - ex - 20⟩)

/-! ## forecasting.ts -/

/-- One point of the historicalData argument of forecastIndicator. -/
structure DataPoint where
  year : ℚ
  value : ℚ
deriving DecidableEq, Repr

/-- Output point of forecastIndicator. -/
structure ForecastPoint where
  year : ℚ
  value : ℚ
  isHistorical : Bool
deriving DecidableEq, Repr

/-- Sort a series by year ascending, as the JS stable Array.prototype.sort
with comparator (a, b) => a.year - b.year does (forecasting.ts lines 18, 58). -/
def sortByYear (l : List DataPoint) : List DataPoint :=
  l.mergeSort (fun a b => decide (a.year ≤ b.year))

/-- Year of the last element of a series (the source indexes the nonempty
sorted list directly; the default is never reached under the length guard). -/
def lastYearOf (l : List DataPoint) : ℚ :=
  ((l.getLast?).map (fun d => d.year)).getD 0

/-- Modelled from the spec: the external regression library's linear fit
(result.predict of the npm package regression, which is not part of this
repository) as the ordinary least-squares line of section 4.4, with the
mandated division-by-zero-safe slope denominator. Only its totality matters
to the theorems below; no claim constrains the forecast values themselves. -/
def linearPredict (pts : List DataPoint) (x : ℚ) : ℚ :=
  let n : ℚ := pts.length
  let sx := (pts.map (fun d => d.year)).sum
  let sy := (pts.map (fun d => d.value)).sum
  let sxx := (pts.map (fun d => d.year * d.year)).sum
  let sxy := (pts.map (fun d => d.year * d.value)).sum
  let denom := n * sxx - sx * sx
  let slope := if denom = 0 then 0 else (n * sxy - sx * sy) / denom
  let intercept := if n = 0 then 0 else (sy - slope * sx) / n
  slope * x + intercept

/-- Function forecastIndicator of forecasting.ts (lines 9-53): empty output
for fewer than 3 points, otherwise the sorted historical points marked
isHistorical = true followed by yearsToForecast predicted points at the
years lastYear + 1, ..., lastYear + yearsToForecast marked false. -/
def forecastIndicator (historicalData : List DataPoint) (yearsToForecast : ℕ) : List ForecastPoint :=
  if historicalData.length < 3 then []
  else
    let sortedData := sortByYear historicalData
    let lastYear := lastYearOf sortedData
    (sortedData.map (fun d => ⟨d.year, d.value, true⟩)) ++
      ((List.range yearsToForecast).map (fun i =>
        ⟨lastYear + ((i : ℚ) + 1), linearPredict sortedData (lastYear + ((i : ℚ) + 1)), false⟩))

/-- Model of Math.pow on rationals. It is exact at integer exponents, the
only exponents at which any statement below evaluates it; at a non-integer
exponent the true result is irrational, hence not representable, and the
statements below only ever relate the function's output to an application
of jsPow itself there. -/
def jsPow (x e : ℚ) : ℚ := if e.den = 1 then x ^ e.num else 0

/-- Value of the first element of the year-sorted series (sorted[0].value
in the source; the default is never reached under the length guard). -/
def firstValueOf (data : List DataPoint) : ℚ :=
  ((sortByYear data).head?.map (fun d => d.value)).getD 0

/-- Value of the last element of the year-sorted series. -/
def lastValueOf (data : List DataPoint) : ℚ :=
  (((sortByYear data).getLast?).map (fun d => d.value)).getD 0

/-- Difference between the last and the first year of the sorted series
(the years variable of the source). -/
def yearSpanOf (data : List DataPoint) : ℚ :=
  (((sortByYear data).getLast?.map (fun d => d.year)).getD 0) -
    (((sortByYear data).head?.map (fun d => d.year)).getD 0)

/-- Function calculateGrowthRate of forecasting.ts (lines 55-68): 0 for
fewer than 2 points, 0 under the explicit first = 0 or years = 0 guard,
otherwise the compound annual growth rate between the first and the last
point of the year-sorted series, expressed in percent (the source
multiplies by 100). -/
def calculateGrowthRate (data : List DataPoint) : ℚ :=
  if data.length < 2 then 0
  else if firstValueOf data = 0 ∨ yearSpanOf data = 0 then 0
  else (jsPow (lastValueOf data / firstValueOf data) (1 / yearSpanOf data) - 1) * 100

/-! ## Concrete inputs used by witnesses and counterexamples -/

/-- Record with every optional field absent. -/
def noData : CountryRiskData :=
  ⟨Option.none, Option.none, Option.none, Option.none, Option.none, Option.none⟩

/-- Record whose only present field is a severe GDP contraction. -/
def recessionOnly : CountryRiskData :=
  ⟨some (-5), Option.none, Option.none, Option.none, Option.none, Option.none⟩

/-- Economic record with imports present but exports absent (and a GDP
contraction so that at least one rule fires). -/
def missingExports : EconOptInput :=
  ⟨some (-1), Option.none, Option.none, Option.none, Option.none, some 50⟩

/-- The factor fired by the GDP-contraction rule on missingExports. -/
def gdpIndicator : Indicator := ⟨"GDP Growth (Contraction)", -1, 1⟩

/-- A legitimate historical series (sorted, distinct years, three points)
whose years are five apart. -/
def histGap : List DataPoint := [⟨2000, 1⟩, ⟨2005, 2⟩, ⟨2010, 3⟩]

/-- A sorted collinear three-point series with consecutive years. -/
def histLinear : List DataPoint := [⟨2020, 10⟩, ⟨2021, 12⟩, ⟨2022, 14⟩]

/-- A two-point series one year apart whose value triples. -/
def growthRows : List DataPoint := [⟨2000, 100⟩, ⟨2001, 300⟩]

/-- Batch rows: entity A has its only record in 2020, entity B in 2021. -/
def batchRows : List DataRow := [⟨"A", 2020, noData⟩, ⟨"B", 2021, noData⟩]

/-- A single batch row for entity B in 2021. -/
def singleRow : List DataRow := [⟨"B", 2021, noData⟩]

/-! ## Helper lemmas -/

theorem gdpGrowthRisk_nonneg (g : ℚ) : 0 ≤ gdpGrowthRisk g := by
  unfold gdpGrowthRisk
  split
  · norm_num
  · split
    · norm_num
    · split <;> norm_num

theorem inflationRisk_nonneg (x : ℚ) : 0 ≤ inflationRisk x := by
  unfold inflationRisk
  split
  · norm_num
  · split
    · norm_num
    · split <;> norm_num

theorem unemploymentRisk_nonneg (x : ℚ) : 0 ≤ unemploymentRisk x := by
  unfold unemploymentRisk
  split
  · norm_num
  · split
    · norm_num
    · split <;> norm_num

theorem foodProductionRisk_nonneg (x : ℚ) : 0 ≤ foodProductionRisk x := by
  unfold foodProductionRisk
  split
  · norm_num
  · split
    · norm_num
    · split <;> norm_num

theorem foodImportsRisk_nonneg (x : ℚ) : 0 ≤ foodImportsRisk x := by
  unfold foodImportsRisk
  split
  · norm_num
  · split <;> norm_num

theorem popPressureRisk_nonneg (p f : ℚ) : 0 ≤ popPressureRisk p f := by
  unfold popPressureRisk
  split
  · norm_num
  · split <;> norm_num

theorem optRisk_nonneg {f : ℚ → ℚ} (hf : ∀ x, 0 ≤ f x) (o : Option ℚ) : 0 ≤ optRisk f o := by
  cases o
  · exact le_refl 0
  · exact hf _

theorem popPressureBlock_nonneg (p f : Option ℚ) : 0 ≤ popPressureBlock p f := by
  cases p <;> cases f <;> first
    | exact le_refl 0
    | exact popPressureRisk_nonneg _ _

theorem blockWeights_nonneg (d : CountryRiskData) : ∀ w ∈ blockWeights d, 0 ≤ w := by
  intro w hw
  simp only [blockWeights, List.mem_cons, List.not_mem_nil, or_false] at hw
  rcases hw with h | h | h | h | h | h <;> subst h
  · exact optRisk_nonneg gdpGrowthRisk_nonneg _
  · exact optRisk_nonneg inflationRisk_nonneg _
  · exact optRisk_nonneg unemploymentRisk_nonneg _
  · exact optRisk_nonneg foodProductionRisk_nonneg _
  · exact optRisk_nonneg foodImportsRisk_nonneg _
  · exact popPressureBlock_nonneg _ _

theorem sum_filter_nonzero (l : List ℚ) :
    (l.filter (fun w => decide (w ≠ 0))).sum = l.sum := by
  induction l with
  | nil => rfl
  | cons a l ih =>
    by_cases h : a = 0
    · subst h
      rw [List.filter_cons, if_neg (by simp), ih, List.sum_cons, zero_add]
    · rw [List.filter_cons, if_pos (by simp [h]), List.sum_cons, List.sum_cons, ih]

theorem optCount_eq_zero {o : Option ℚ} : optCount o = 0 ↔ o = Option.none := by
  cases o <;> simp [optCount]

theorem popPressureBlock_none_right (p : Option ℚ) :
    popPressureBlock p Option.none = 0 := by
  cases p <;> rfl

theorem popPressureCount_none_right (p : Option ℚ) :
    popPressureCount p Option.none = 0 := by
  cases p <;> rfl

/-! ## Claim theorems -/

/-- C2: for every IndicatorRecord with at least one usable field, the
aggregate risk score of calculateRiskScore equals the sum of the fixed
weights of the fired rules clamped to the interval 0..100, and for every
record (usable fields or not) the returned score lies in 0..100; likewise
the economic analyzer's probability is the clamp of the sum of the fixed
per-rule weight 100/6 over the fired rules (not of their raw impacts) and
lies in 0..100. -/
theorem calculateRiskScore_weights_bounds (d : CountryRiskData) (c : String)
    (e : EconomicCrisisIndicators) :
    ((0 < factorCount d → calculateRiskScore d = min 100 (max 0 (firedWeights d).sum)) ∧
      0 ≤ calculateRiskScore d ∧ calculateRiskScore d ≤ 100) ∧
    ((analyzeEconomicCrisis c e).probability =
        min 100 (((econContributingFactors e).map (fun _ => (100 / 6 : ℚ))).sum) ∧
      0 ≤ (analyzeEconomicCrisis c e).probability ∧
      (analyzeEconomicCrisis c e).probability ≤ 100) := by
  have hnn : 0 ≤ (blockWeights d).sum := List.sum_nonneg (blockWeights_nonneg d)
  refine ⟨⟨fun h => ?_, ?_, ?_⟩, ?_, ?_, ?_⟩
  · rw [calculateRiskScore, if_pos h, firedWeights, sum_filter_nonzero, max_eq_right hnn]
  · rw [calculateRiskScore]
    split
    · exact le_min (by norm_num) hnn
    · norm_num
  · rw [calculateRiskScore]
    split
    · exact min_le_left _ _
    · norm_num
  · show min 100 (((econContributingFactors e).length : ℚ) / 6 * 100) =
      min 100 (((econContributingFactors e).map (fun _ => (100 / 6 : ℚ))).sum)
    have hsum : ((econContributingFactors e).map (fun _ => (100 / 6 : ℚ))).sum =
        ((econContributingFactors e).length : ℚ) * (100 / 6) := by
      induction econContributingFactors e with
      | nil => simp
      | cons a l ih =>
        simp only [List.map_cons, List.sum_cons, ih, List.length_cons]
        push_cast
        ring
    rw [hsum]
    congr 1
    ring
  · show 0 ≤ min 100 (((econContributingFactors e).length : ℚ) / 6 * 100)
    refine le_min (by norm_num) ?_
    positivity
  · show min 100 (((econContributingFactors e).length : ℚ) / 6 * 100) ≤ 100
    exact min_le_left _ _

/-- C2 witness: a record with a single usable field (a GDP contraction of
-5 percent) fires the severe-recession rule of weight 30 and scores 30. -/
theorem calculateRiskScore_weights_bounds_witness :
    calculateRiskScore recessionOnly = min 100 (max 0 (firedWeights recessionOnly).sum) ∧
    calculateRiskScore recessionOnly = 30 := by
  refine ⟨((calculateRiskScore_weights_bounds recessionOnly "X" ⟨1, 1, 1, 1, 20, 20⟩).1).1
    (by decide), ?_⟩
  norm_num [calculateRiskScore, recessionOnly, factorCount, optCount, popPressureCount,
    blockWeights, optRisk, popPressureBlock, gdpGrowthRisk, min_def]

/-- C3: a record with zero usable fields is scored with the sentinel
neutral value 50 (not 0) and fires no rule at all, so the top-factor
selection applied to the (empty) fired list is empty; the inline Home-page
variant obeys the same neutral-score policy. -/
theorem zero_usable_fields_neutral (d : CountryRiskData) :
    (factorCount d = 0 → calculateRiskScore d = 50 ∧ firedWeights d = []) ∧
    (homeFactorCount d = 0 → homeRiskScore d = 50) ∧
    topIndicatorsOf [] = [] := by
  refine ⟨?_, fun h => by rw [homeRiskScore, if_neg (by omega)], by simp [topIndicatorsOf]⟩
  · intro h
    refine ⟨by rw [calculateRiskScore, if_neg (by omega)], ?_⟩
    unfold factorCount at h
    have hg : d.gdpGrowth = Option.none := optCount_eq_zero.mp (by omega)
    have hi : d.inflation = Option.none := optCount_eq_zero.mp (by omega)
    have hu : d.unemployment = Option.none := optCount_eq_zero.mp (by omega)
    have hf : d.foodProductionIndex = Option.none := optCount_eq_zero.mp (by omega)
    have hm : d.foodImports = Option.none := optCount_eq_zero.mp (by omega)
    rw [firedWeights, blockWeights, hg, hi, hu, hf, hm, popPressureBlock_none_right]
    rfl

/-- C3 witness: the all-absent record scores 50 with an empty fired list in
calculateRiskScore and scores 50 on the Home page. -/
theorem zero_usable_fields_neutral_witness :
    (calculateRiskScore noData = 50 ∧ firedWeights noData = []) ∧ homeRiskScore noData = 50 :=
  ⟨(zero_usable_fields_neutral noData).1 (by decide),
   (zero_usable_fields_neutral noData).2.1 (by decide)⟩

theorem mem_optFrag {ind : Indicator} {o : Option ℚ} {cond : ℚ → Bool} {mk : ℚ → Indicator} :
    ind ∈ optFrag o cond mk ↔ ∃ x, o = some x ∧ cond x = true ∧ ind = mk x := by
  cases o with
  | none => simp [optFrag]
  | some x =>
    by_cases hc : cond x
    · simp [optFrag, hc]
    · simp [optFrag, hc]

theorem mem_optFrag2 {ind : Indicator} {o1 o2 : Option ℚ} {cond : ℚ → ℚ → Bool}
    {mk : ℚ → ℚ → Indicator} :
    ind ∈ optFrag2 o1 o2 cond mk ↔
      ∃ x y, o1 = some x ∧ o2 = some y ∧ cond x y = true ∧ ind = mk x y := by
  cases o1 with
  | none => simp [optFrag2]
  | some x =>
    cases o2 with
    | none => simp [optFrag2]
    | some y =>
      by_cases hc : cond x y
      · simp [optFrag2, hc]
      · simp [optFrag2, hc]

/-- Every factor in the fired list of the optional-field economic analysis
names one of the six rules, and all fields that rule reads are present. -/
theorem econFiredOpt_deps {d : EconOptInput} {ind : Indicator} (h : ind ∈ econFiredOpt d) :
    (ind.name = "GDP Growth (Contraction)" ∧ d.gdpGrowth.isSome = true) ∨
    (ind.name = "Inflation Rate (High)" ∧ d.inflation.isSome = true) ∨
    (ind.name = "Unemployment Rate (High)" ∧ d.unemployment.isSome = true) ∨
    (ind.name = "Domestic Credit (Excessive)" ∧ d.domesticCredit.isSome = true) ∨
    (ind.name = "Exports (Weak)" ∧ d.exports.isSome = true) ∨
    (ind.name = "Trade Balance (Deficit)" ∧
      d.imports.isSome = true ∧ d.exports.isSome = true) := by
  simp only [econFiredOpt, List.mem_append, mem_optFrag, mem_optFrag2] at h
  rcases h with ((((⟨x, hx, _, hi⟩ | ⟨x, hx, _, hi⟩) | ⟨x, hx, _, hi⟩) | ⟨x, hx, _, hi⟩) |
    ⟨x, hx, _, hi⟩) | ⟨x, y, hx, hy, _, hi⟩
  · exact Or.inl ⟨by rw [hi], by rw [hx]; rfl⟩
  · exact Or.inr (Or.inl ⟨by rw [hi], by rw [hx]; rfl⟩)
  · exact Or.inr (Or.inr (Or.inl ⟨by rw [hi], by rw [hx]; rfl⟩))
  · exact Or.inr (Or.inr (Or.inr (Or.inl ⟨by rw [hi], by rw [hx]; rfl⟩)))
  · exact Or.inr (Or.inr (Or.inr (Or.inr (Or.inl ⟨by rw [hi], by rw [hx]; rfl⟩))))
  · exact Or.inr (Or.inr (Or.inr (Or.inr (Or.inr
      ⟨by rw [hi], by rw [hx]; rfl, by rw [hy]; rfl⟩))))

/-- C5: a rule whose dependent field is absent never fires. Every fired
factor has all the fields its rule reads present (so absent fields are
never defaulted to 0 or treated as safe); in particular the trade-balance
rule, whose derived quantity reads both imports and exports, is absent
from the fired list whenever exports is missing even if imports is
present; and in calculateRiskScore the two-field population-pressure rule
is skipped (neither counted nor scored) when foodProductionIndex is
absent. -/
theorem absent_field_rule_never_fires (d : EconOptInput) (ind : Indicator) :
    (ind ∈ econFiredOpt d →
      (ind.name = "GDP Growth (Contraction)" → d.gdpGrowth.isSome = true) ∧
      (ind.name = "Inflation Rate (High)" → d.inflation.isSome = true) ∧
      (ind.name = "Unemployment Rate (High)" → d.unemployment.isSome = true) ∧
      (ind.name = "Domestic Credit (Excessive)" → d.domesticCredit.isSome = true) ∧
      (ind.name = "Exports (Weak)" → d.exports.isSome = true) ∧
      (ind.name = "Trade Balance (Deficit)" →
        d.imports.isSome = true ∧ d.exports.isSome = true)) ∧
    (d.imports.isSome = true → d.exports = Option.none →
      "Trade Balance (Deficit)" ∉ (econFiredOpt d).map Indicator.name) ∧
    (∀ cr : CountryRiskData, cr.foodProductionIndex = Option.none →
      popPressureCount cr.populationGrowth cr.foodProductionIndex = 0 ∧
      popPressureBlock cr.populationGrowth cr.foodProductionIndex = 0) := by
  refine ⟨fun hmem => ?_, fun _ hex hname => ?_, fun cr hc => ?_⟩
  · have H := econFiredOpt_deps hmem
    refine ⟨fun hn => ?_, fun hn => ?_, fun hn => ?_, fun hn => ?_, fun hn => ?_, fun hn => ?_⟩ <;>
      rcases H with ⟨e1, e2⟩ | ⟨e1, e2⟩ | ⟨e1, e2⟩ | ⟨e1, e2⟩ | ⟨e1, e2⟩ | ⟨e1, e2, e3⟩ <;>
      simp_all
  · obtain ⟨j, hj, hjname⟩ := List.mem_map.mp hname
    have H := econFiredOpt_deps hj
    rcases H with ⟨e1, e2⟩ | ⟨e1, e2⟩ | ⟨e1, e2⟩ | ⟨e1, e2⟩ | ⟨e1, e2⟩ | ⟨e1, e2, e3⟩ <;>
      simp_all
  · rw [hc]
    exact ⟨popPressureCount_none_right _, popPressureBlock_none_right _⟩

/-- C5 witness: on a record with a GDP contraction, imports present and
exports absent, the GDP rule fires with its field present and the
trade-balance rule is not in the fired list. -/
theorem absent_field_rule_never_fires_witness :
    (gdpIndicator.name = "GDP Growth (Contraction)" →
      missingExports.gdpGrowth.isSome = true) ∧
    "Trade Balance (Deficit)" ∉ (econFiredOpt missingExports).map Indicator.name :=
  ⟨((absent_field_rule_never_fires missingExports gdpIndicator).1 (by decide)).1,
   (absent_field_rule_never_fires missingExports gdpIndicator).2.1 (by decide) (by decide)⟩

theorem impactDescLE_trans :
    ∀ a b c : Indicator, impactDescLE a b → impactDescLE b c → impactDescLE a c := by
  intro a b c hab hbc
  simp only [impactDescLE, decide_eq_true_eq] at hab hbc ⊢
  exact le_trans hbc hab

theorem impactDescLE_total : ∀ a b : Indicator, impactDescLE a b || impactDescLE b a := by
  intro a b
  simp only [impactDescLE, Bool.or_eq_true, decide_eq_true_eq]
  exact le_total b.impact a.impact

/-- Stability of the impact sort: for every impact value, the factors
carrying that impact appear in the sorted list exactly as they appear in
the input (the JS comparator returns 0 on ties and Array.prototype.sort is
stable). -/
theorem mergeSort_impact_stable (l : List Indicator) (q : ℚ) :
    (l.mergeSort impactDescLE).filter (fun j => decide (j.impact = q)) =
      l.filter (fun j => decide (j.impact = q)) := by
  have hpw : (l.filter (fun j => decide (j.impact = q))).Pairwise
      (fun a b => impactDescLE a b = true) := by
    apply List.pairwise_of_forall_mem_list
    intro a ha b hb
    simp only [List.mem_filter, decide_eq_true_eq] at ha hb
    simp only [impactDescLE, decide_eq_true_eq, ha.2, hb.2]
    exact le_rfl
  have hsub : List.Sublist (l.filter (fun j => decide (j.impact = q)))
      (l.mergeSort impactDescLE) :=
    List.sublist_mergeSort impactDescLE_trans impactDescLE_total hpw (List.filter_sublist l)
  have hsub2 := hsub.filter (fun j => decide (j.impact = q))
  rw [List.filter_filter] at hsub2
  have hpeq : (fun a : Indicator => decide (a.impact = q) && decide (a.impact = q)) =
      (fun j : Indicator => decide (j.impact = q)) := by
    funext a
    exact Bool.and_self _
  rw [hpeq] at hsub2
  have hperm : List.Perm ((l.mergeSort impactDescLE).filter (fun j => decide (j.impact = q)))
      (l.filter (fun j => decide (j.impact = q))) :=
    (List.mergeSort_perm l impactDescLE).filter _
  exact (hsub2.eq_of_length hperm.length_eq.symm).symm

/-- C4: the returned top-factor list has length at most 3, is sorted by
impact in descending order, equals the truncation of the stably sorted
fired list to its first three entries (stability: factors of equal impact
keep their rule-declaration order, by mergeSort_impact_stable), and both
analyzers produce their topIndicators exactly this way. -/
theorem topIndicators_sorted_truncated (l : List Indicator) (c : String)
    (e : EconomicCrisisIndicators) (f : FoodCrisisIndicators) :
    (topIndicatorsOf l).length ≤ 3 ∧
    (topIndicatorsOf l).Pairwise (fun a b => b.impact ≤ a.impact) ∧
    topIndicatorsOf l = (l.mergeSort impactDescLE).take 3 ∧
    (∀ q : ℚ, (l.mergeSort impactDescLE).filter (fun j => decide (j.impact = q)) =
      l.filter (fun j => decide (j.impact = q))) ∧
    (analyzeEconomicCrisis c e).topIndicators = topIndicatorsOf (econContributingFactors e) ∧
    (analyzeFoodCrisis c f).topIndicators = topIndicatorsOf (foodContributingFactors f) := by
  refine ⟨List.length_take_le 3 _, ?_, rfl, mergeSort_impact_stable l, rfl, rfl⟩
  have hs : (l.mergeSort impactDescLE).Pairwise (fun a b => impactDescLE a b = true) :=
    List.sorted_mergeSort impactDescLE_trans impactDescLE_total l
  have hs2 : (l.mergeSort impactDescLE).Pairwise (fun a b => b.impact ≤ a.impact) :=
    hs.imp (fun hab => by simpa [impactDescLE] using hab)
  exact hs2.sublist (List.take_sublist 3 _)

theorem econContributingFactors_length_le (e : EconomicCrisisIndicators) :
    (econContributingFactors e).length ≤ 6 := by
  unfold econContributingFactors
  split_ifs <;> simp

theorem foodContributingFactors_length_le (f : FoodCrisisIndicators) :
    (foodContributingFactors f).length ≤ 7 := by
  unfold foodContributingFactors
  split_ifs <;> simp

/-- C6: in both analyzers the classification is a function of the clamped
probability alone, through one fixed domain-independent banding (bandOf)
with non-overlapping bands ordered by the score, and every score strictly
above 70 falls in the highest band. -/
theorem classification_single_banding (c : String) (e : EconomicCrisisIndicators)
    (f : FoodCrisisIndicators) :
    (analyzeEconomicCrisis c e).riskLevel = bandOf (analyzeEconomicCrisis c e).probability ∧
    (analyzeFoodCrisis c f).riskLevel = bandOf (analyzeFoodCrisis c f).probability ∧
    (∀ s : ℚ, 70 < s → bandOf s = RiskLevel.severe) := by
  refine ⟨?_, ?_, fun s hs => ?_⟩
  · have h := econContributingFactors_length_le e
    simp only [analyzeEconomicCrisis]
    generalize (econContributingFactors e).length = n at h ⊢
    interval_cases n <;> norm_num [econRiskLevel, bandOf, min_def]
  · have h := foodContributingFactors_length_le f
    simp only [analyzeFoodCrisis]
    generalize (foodContributingFactors f).length = n at h ⊢
    interval_cases n <;> norm_num [foodRiskLevel, bandOf, min_def]
  · unfold bandOf
    rw [if_neg (by linarith), if_neg (by linarith), if_neg (by linarith)]

/-- C6 witness: a concrete economic record firing several rules is
classified through the shared banding, and the band of the concrete score
80 is the highest one. -/
theorem classification_single_banding_witness :
    (analyzeEconomicCrisis "X" ⟨-2, 25, 12, 120, 10, 40⟩).riskLevel =
      bandOf (analyzeEconomicCrisis "X" ⟨-2, 25, 12, 120, 10, 40⟩).probability ∧
    bandOf 80 = RiskLevel.severe :=
  ⟨(classification_single_banding "X" ⟨-2, 25, 12, 120, 10, 40⟩
      ⟨500, 20, 90, 1, 700, 12, 3⟩).1,
   (classification_single_banding "X" ⟨-2, 25, 12, 120, 10, 40⟩
      ⟨500, 20, 90, 1, 700, 12, 3⟩).2.2 80 (by norm_num)⟩

/-- C7: with fewer than 3 historical points the forecaster returns the
empty sequence as an ordinary value (the function is total, so no
exception can arise in the model; the source likewise returns before any
computation happens). -/
theorem forecast_insufficient_history (data : List DataPoint) (n : ℕ)
    (h : data.length < 3) : forecastIndicator data n = [] := by
  rw [forecastIndicator, if_pos h]

/-- C7 witness: two of the insufficient-history shapes, the empty series
and a two-point series. -/
theorem forecast_insufficient_history_witness :
    forecastIndicator [] 5 = [] ∧ forecastIndicator [⟨2000, 1⟩, ⟨2001, 2⟩] 5 = [] :=
  ⟨forecast_insufficient_history [] 5 (by decide),
   forecast_insufficient_history [⟨2000, 1⟩, ⟨2001, 2⟩] 5 (by decide)⟩

theorem sortByYear_of_sorted {l : List DataPoint}
    (h : l.Pairwise (fun a b => a.year ≤ b.year)) : sortByYear l = l :=
  List.mergeSort_of_sorted (h.imp (fun hab => decide_eq_true hab))

/-- C8 (amended): for a sorted duplicate-free history of at least 3 points
and any horizon N, the output is the history verbatim (isHistorical true)
followed by N predicted points at the years lastYear + 1 .. lastYear + N
(isHistorical false), and the whole output is strictly increasing in year.
Gaps present in the historical years persist in the output, which is why
the no-gaps clause of the claim is dropped. -/
theorem forecast_structure (data : List DataPoint) (N : ℕ)
    (hsorted : data.Chain' (fun a b => a.year < b.year)) (hlen : 3 ≤ data.length) :
    forecastIndicator data N =
      (data.map (fun d => ⟨d.year, d.value, true⟩)) ++
        ((List.range N).map (fun i : ℕ =>
          (⟨lastYearOf data + ((i : ℚ) + 1),
            linearPredict data (lastYearOf data + ((i : ℚ) + 1)), false⟩ : ForecastPoint))) ∧
    (forecastIndicator data N).Chain' (fun p q => p.year < q.year) := by
  haveI : IsTrans DataPoint (fun a b => a.year < b.year) :=
    ⟨fun _ _ _ hab hbc => lt_trans hab hbc⟩
  have hpair : data.Pairwise (fun a b => a.year < b.year) :=
    List.chain'_iff_pairwise.mp hsorted
  have hsort : sortByYear data = data :=
    sortByYear_of_sorted (hpair.imp (fun hab => le_of_lt hab))
  have heq : forecastIndicator data N =
      (data.map (fun d => ⟨d.year, d.value, true⟩)) ++
        ((List.range N).map (fun i : ℕ =>
          (⟨lastYearOf data + ((i : ℚ) + 1),
            linearPredict data (lastYearOf data + ((i : ℚ) + 1)), false⟩ : ForecastPoint))) := by
    unfold forecastIndicator
    rw [if_neg (by omega), hsort]
  refine ⟨heq, ?_⟩
  rw [heq]
  apply List.Chain'.append
  · rw [List.chain'_map]
    exact hsorted
  · rw [List.chain'_map]
    apply List.Pairwise.chain'
    refine (List.pairwise_lt_range N).imp (fun {i j} hij => ?_)
    show lastYearOf data + ((i : ℚ) + 1) < lastYearOf data + ((j : ℚ) + 1)
    have hq : (i : ℚ) < (j : ℚ) := Nat.cast_lt.mpr hij
    linarith
  · intro x hx y hy
    rw [List.getLast?_map] at hx
    obtain ⟨z, hz, hxz⟩ := Option.map_eq_some'.mp hx
    cases N with
    | zero => simp at hy
    | succ n =>
      rw [List.range_succ_eq_map, List.map_cons, List.head?_cons] at hy
      have hyy : y = (⟨lastYearOf data + (((0 : ℕ) : ℚ) + 1),
          linearPredict data (lastYearOf data + (((0 : ℕ) : ℚ) + 1)),
          false⟩ : ForecastPoint) := by
        simpa [eq_comm] using hy
      have hlast : lastYearOf data = z.year := by
        rw [lastYearOf, hz]
        rfl
      rw [hyy, ← hxz]
      show z.year < lastYearOf data + (((0 : ℕ) : ℚ) + 1)
      rw [hlast]
      norm_num

/-- C8 witness: the collinear three-point series with horizon 2 produces
the history verbatim plus two strictly later forecast points. -/
theorem forecast_structure_witness :
    forecastIndicator histLinear 2 =
      (histLinear.map (fun d => ⟨d.year, d.value, true⟩)) ++
        ((List.range 2).map (fun i : ℕ =>
          (⟨lastYearOf histLinear + ((i : ℚ) + 1),
            linearPredict histLinear (lastYearOf histLinear + ((i : ℚ) + 1)),
            false⟩ : ForecastPoint))) ∧
    (forecastIndicator histLinear 2).Chain' (fun p q => p.year < q.year) :=
  forecast_structure histLinear 2
    (by norm_num [histLinear, List.chain'_cons]) (by norm_num [histLinear])

/-- C8 counterexample: on the legitimate (sorted, distinct, three-point)
series with five-year spacing the output of the forecaster is NOT gap-free,
so the whole-output no-gaps clause of the claim is false. -/
theorem forecast_no_gaps_counterexample :
    histGap.Chain' (fun a b => a.year < b.year) ∧ 3 ≤ histGap.length ∧
    ¬ ((forecastIndicator histGap 2).Chain' (fun p q => q.year = p.year + 1)) := by
  have hsg : sortByYear histGap = histGap :=
    sortByYear_of_sorted (by norm_num [histGap, List.pairwise_cons])
  refine ⟨by norm_num [histGap, List.chain'_cons], by norm_num [histGap], ?_⟩
  intro hch
  have heq : forecastIndicator histGap 2 =
      ((⟨2000, 1, true⟩ : ForecastPoint) :: ⟨2005, 2, true⟩ :: ⟨2010, 3, true⟩ :: []) ++
        ((List.range 2).map (fun i : ℕ =>
          (⟨lastYearOf histGap + ((i : ℚ) + 1),
            linearPredict histGap (lastYearOf histGap + ((i : ℚ) + 1)),
            false⟩ : ForecastPoint))) := by
    unfold forecastIndicator
    rw [if_neg (by norm_num [histGap]), hsg]
    simp [histGap]
  rw [heq] at hch
  have hrel := (List.chain'_cons.mp hch).1
  norm_num at hrel

theorem growthRows_sortByYear : sortByYear growthRows = growthRows :=
  sortByYear_of_sorted (by norm_num [growthRows, List.pairwise_cons])

theorem growthRows_firstValue : firstValueOf growthRows = 100 := by
  rw [firstValueOf, growthRows_sortByYear]
  norm_num [growthRows]

theorem growthRows_lastValue : lastValueOf growthRows = 300 := by
  rw [lastValueOf, growthRows_sortByYear]
  norm_num [growthRows]

theorem growthRows_yearSpan : yearSpanOf growthRows = 1 := by
  rw [yearSpanOf, growthRows_sortByYear]
  norm_num [growthRows]

theorem jsPow_three_one : jsPow ((300 : ℚ) / 100) (1 / 1) = 3 := by
  rw [show ((1 : ℚ) / 1) = 1 by norm_num, show ((300 : ℚ) / 100) = 3 by norm_num, jsPow,
    if_pos Rat.den_one, Rat.num_one, zpow_one]

/-- C9 (amended): for a series of at least two points the function returns
exactly 0 under the first = 0 or span = 0 guard, and otherwise returns the
compound growth rate between the first and last year-sorted points
expressed in percent, that is 100 times the claimed expression
(last/first)^(1/span) - 1. -/
theorem growth_rate_formula (data : List DataPoint) (h2 : 2 ≤ data.length) :
    (firstValueOf data = 0 ∨ yearSpanOf data = 0 → calculateGrowthRate data = 0) ∧
    (firstValueOf data ≠ 0 → yearSpanOf data ≠ 0 →
      calculateGrowthRate data =
        (jsPow (lastValueOf data / firstValueOf data) (1 / yearSpanOf data) - 1) * 100) := by
  constructor
  · intro h
    rw [calculateGrowthRate, if_neg (by omega), if_pos h]
  · intro hf hy
    rw [calculateGrowthRate, if_neg (by omega), if_neg (by tauto)]

/-- C9 witness: a series doubling three-fold over one year returns
(3^1 - 1) * 100 = 200 percent. -/
theorem growth_rate_formula_witness :
    calculateGrowthRate growthRows =
      (jsPow (lastValueOf growthRows / firstValueOf growthRows) (1 / yearSpanOf growthRows) - 1)
        * 100 :=
  (growth_rate_formula growthRows (by norm_num [growthRows])).2
    (by rw [growthRows_firstValue]; norm_num)
    (by rw [growthRows_yearSpan]; norm_num)

/-- C9 counterexample: on the two-point series (2000, 100), (2001, 300)
the claimed value (last/first)^(1/span) - 1 is 2, but the function returns
200 (the rate in percent), so the claim as stated is false. -/
theorem growth_rate_counterexample :
    calculateGrowthRate growthRows = 200 ∧
    jsPow (lastValueOf growthRows / firstValueOf growthRows) (1 / yearSpanOf growthRows) - 1 = 2 ∧
    (200 : ℚ) ≠ 2 := by
  have hval : jsPow (lastValueOf growthRows / firstValueOf growthRows)
      (1 / yearSpanOf growthRows) - 1 = 2 := by
    rw [growthRows_firstValue, growthRows_lastValue, growthRows_yearSpan, jsPow_three_one]
    norm_num
  refine ⟨?_, hval, by norm_num⟩
  rw [calculateGrowthRate, if_neg (by norm_num [growthRows]),
    if_neg (by rw [growthRows_firstValue, growthRows_yearSpan]; norm_num), hval]
  norm_num

theorem mem_keys_upsert (m : List (String × ℚ)) (k : String) (v : ℚ) (a : String) :
    a ∈ (upsert m k v).map Prod.fst ↔ a ∈ m.map Prod.fst ∨ a = k := by
  unfold upsert
  split
  · next hany =>
    have hk : k ∈ m.map Prod.fst := by
      rw [List.any_eq_true] at hany
      obtain ⟨p, hp, hpk⟩ := hany
      rw [decide_eq_true_eq] at hpk
      exact List.mem_map.mpr ⟨p, hp, hpk⟩
    rw [List.map_map]
    constructor
    · intro h
      obtain ⟨p, hp, hpa⟩ := List.mem_map.mp h
      by_cases hc : p.1 = k
      · simp only [Function.comp_apply, if_pos hc] at hpa
        exact Or.inr hpa.symm
      · simp only [Function.comp_apply, if_neg hc] at hpa
        exact Or.inl (List.mem_map.mpr ⟨p, hp, hpa⟩)
    · intro h
      rcases h with h | h
      · obtain ⟨p, hp, hpa⟩ := List.mem_map.mp h
        refine List.mem_map.mpr ⟨p, hp, ?_⟩
        by_cases hc : p.1 = k
        · simp only [Function.comp_apply, if_pos hc]
          rw [← hpa, hc]
        · simp only [Function.comp_apply, if_neg hc]
          exact hpa
      · subst h
        obtain ⟨p, hp, hpa⟩ := List.mem_map.mp hk
        refine List.mem_map.mpr ⟨p, hp, ?_⟩
        simp only [Function.comp_apply, if_pos hpa]
  · simp

theorem nodup_keys_upsert (m : List (String × ℚ)) (k : String) (v : ℚ)
    (h : (m.map Prod.fst).Nodup) : ((upsert m k v).map Prod.fst).Nodup := by
  unfold upsert
  split
  · next hany =>
    have heq : (m.map (fun p => if p.1 = k then (k, v) else p)).map Prod.fst =
        m.map Prod.fst := by
      rw [List.map_map]
      apply List.map_congr_left
      intro p _
      by_cases hc : p.1 = k
      · simp only [Function.comp_apply, if_pos hc]
        exact hc.symm
      · simp only [Function.comp_apply, if_neg hc]
    rw [heq]
    exact h
  · next hany =>
    have hk : k ∉ m.map Prod.fst := by
      intro hmem
      apply hany
      obtain ⟨p, hp, hpk⟩ := List.mem_map.mp hmem
      rw [List.any_eq_true]
      exact ⟨p, hp, decide_eq_true hpk⟩
    rw [List.map_append]
    simp only [List.map_cons, List.map_nil]
    rw [List.nodup_append]
    exact ⟨h, List.nodup_singleton k, by simpa using fun hx => hk hx⟩

theorem mem_upsert_pair (m : List (String × ℚ)) (k : String) (v : ℚ) (a : String) (w : ℚ)
    (h : (a, w) ∈ upsert m k v) : (a, w) ∈ m ∨ (a = k ∧ w = v) := by
  unfold upsert at h
  split at h
  · obtain ⟨p, hp, hpa⟩ := List.mem_map.mp h
    by_cases hc : p.1 = k
    · rw [if_pos hc] at hpa
      right
      exact ⟨(congrArg Prod.fst hpa).symm, (congrArg Prod.snd hpa).symm⟩
    · rw [if_neg hc] at hpa
      left
      rw [← hpa]
      exact hp
  · rcases List.mem_append.mp h with h | h
    · exact Or.inl h
    · right
      simp only [List.mem_singleton, Prod.mk.injEq] at h
      exact h

theorem foldl_upsert_keys (l : List (String × ℚ)) (m : List (String × ℚ)) (a : String) :
    a ∈ ((l.foldl (fun acc p => upsert acc p.1 p.2) m).map Prod.fst) ↔
      a ∈ m.map Prod.fst ∨ a ∈ l.map Prod.fst := by
  induction l generalizing m with
  | nil => simp
  | cons p l ih =>
    rw [List.foldl_cons, ih, mem_keys_upsert]
    simp only [List.map_cons, List.mem_cons]
    tauto

theorem foldl_upsert_nodup (l : List (String × ℚ)) (m : List (String × ℚ))
    (h : (m.map Prod.fst).Nodup) :
    ((l.foldl (fun acc p => upsert acc p.1 p.2) m).map Prod.fst).Nodup := by
  induction l generalizing m with
  | nil => exact h
  | cons p l ih =>
    rw [List.foldl_cons]
    exact ih _ (nodup_keys_upsert m p.1 p.2 h)

theorem foldl_upsert_mem (l : List (String × ℚ)) (m : List (String × ℚ)) (a : String) (w : ℚ)
    (h : (a, w) ∈ l.foldl (fun acc p => upsert acc p.1 p.2) m) :
    (a, w) ∈ m ∨ (a, w) ∈ l := by
  induction l generalizing m with
  | nil => exact Or.inl h
  | cons p l ih =>
    rw [List.foldl_cons] at h
    rcases ih _ h with h2 | h2
    · rcases mem_upsert_pair m p.1 p.2 a w h2 with h3 | h3
      · exact Or.inl h3
      · refine Or.inr (List.mem_cons.mpr (Or.inl ?_))
        rw [Prod.ext_iff]
        exact h3
    · exact Or.inr (List.mem_cons.mpr (Or.inr h2))

/-- C1 (amended): calculateCountryRisks keys its output by entity and
contains exactly one entry per entity having at least one row at the
GLOBALLY latest period (the maximum year over all rows, not each entity's
own maximum); every entry is scored from one of that entity's rows at that
period, and entities whose rows are all older than the global maximum are
absent. -/
theorem batch_latest_global_period (rows : List DataRow) :
    ((calculateCountryRisks rows).map Prod.fst).Nodup ∧
    (∀ name, name ∈ (calculateCountryRisks rows).map Prod.fst ↔
      ∃ r ∈ rows, r.countryName = name ∧ some r.year = latestYear? rows) ∧
    (∀ name v, (name, v) ∈ calculateCountryRisks rows →
      ∃ r ∈ rows, r.countryName = name ∧ some r.year = latestYear? rows ∧
        v = calculateRiskScore r.data) := by
  unfold calculateCountryRisks
  cases hly : latestYear? rows with
  | none =>
    have hrows : rows = [] := by
      have := List.max?_eq_none_iff.mp hly
      cases rows with
      | nil => rfl
      | cons r rs => simp at this
    subst hrows
    refine ⟨List.nodup_nil, fun name => ?_, fun name v h => absurd h (List.not_mem_nil _)⟩
    simp
  | some ly =>
    refine ⟨foldl_upsert_nodup _ [] (by simp), fun name => ?_, fun name v h => ?_⟩
    · rw [foldl_upsert_keys]
      simp only [List.map_nil, List.not_mem_nil, false_or, List.map_map, List.mem_map,
        List.mem_filter, Function.comp_apply, decide_eq_true_eq, hly, Option.some_inj]
      constructor
      · rintro ⟨r, ⟨hr, hy⟩, hn⟩
        exact ⟨r, hr, hn, hy⟩
      · rintro ⟨r, hr, hn, hy⟩
        exact ⟨r, ⟨hr, hy⟩, hn⟩
    · rcases foldl_upsert_mem _ [] name v h with h2 | h2
      · exact absurd h2 (List.not_mem_nil _)
      · obtain ⟨r, hr, hrv⟩ := List.mem_map.mp h2
        rw [List.mem_filter, decide_eq_true_eq] at hr
        rw [Prod.mk.injEq] at hrv
        exact ⟨r, hr.1, hrv.1, by rw [hr.2], hrv.2.symm⟩

/-- C1 witness: with a single row the entity is present, scored from its
own (globally latest) row. -/
theorem batch_latest_global_period_witness :
    ∃ r ∈ singleRow, r.countryName = "B" ∧ some r.year = latestYear? singleRow ∧
      (50 : ℚ) = calculateRiskScore r.data :=
  (batch_latest_global_period singleRow).2.2 "B" 50 (by decide)

/-- C1 counterexample: entity A has a record (year 2020), but because
entity B has a later record (year 2021) the batch output drops A entirely,
contradicting the claim that every entity with at least one record gets
exactly one result computed from its own most recent observation. -/
theorem batch_per_entity_counterexample :
    "A" ∈ batchRows.map (fun r => r.countryName) ∧
    calculateCountryRisks batchRows = [("B", 50)] ∧
    "A" ∉ (calculateCountryRisks batchRows).map Prod.fst := by
  refine ⟨by decide, ?_, ?_⟩ <;> decide

/-- C10: a record whose only present measured field is populationGrowth
counts zero usable factors, because the population-pressure guard also
requires foodProductionIndex; calculateRiskScore therefore returns the
neutral 50 whatever the present value is. -/
theorem populationGrowth_alone_unusable (p : ℚ) :
    factorCount ⟨Option.none, Option.none, Option.none, Option.none, Option.none, some p⟩ = 0 ∧
    calculateRiskScore
      ⟨Option.none, Option.none, Option.none, Option.none, Option.none, some p⟩ = 50 := by
  constructor <;> rfl

end Dashboard
